import Mathlib

/-!
Verification of the check-plugin data pipeline of this repository
(table parsing, entity correlation, discovery, rate handling, threshold
evaluation) against its natural-language specification.

The Python templates under `assets/templates/` are shallowly embedded:
raw SNMP/agent rows are `List String`, Python dicts are association
lists with Python's insertion semantics (`dictInsert` / `dictGet`),
Python floats are modelled as rationals, and code that can raise
`ValueError` returns `Except String`.  Framework facilities imported
from `cmk.agent_based.v2` (`get_rate`, `check_levels`, `render`) are not
part of this repository; they are modelled from the specification where
the claims need them, as marked in their doc comments.
-/

namespace CmkSpec

/-! ## Python primitive operations -/

/-- Numeric value of a list of decimal digit characters. -/
def digitsVal (cs : List Char) : Nat :=
  cs.foldl (fun a c => 10 * a + (c.toNat - 48)) 0

/-- Python `str.isdigit()`: non-empty and all characters are digits. -/
def isDigits (s : String) : Bool :=
  !s.isEmpty && s.data.all Char.isDigit

/-- Python `int(s)` on an optionally `-`-signed decimal string; `none`
models a raised `ValueError`. -/
def pyInt (s : String) : Option Int :=
  match s.data with
  | '-' :: rest =>
      if !rest.isEmpty && rest.all Char.isDigit then
        some (-(digitsVal rest : Int))
      else none
  | _ => if isDigits s then some (digitsVal s.data) else none

/-- The Python idiom `int(s) if s.isdigit() else 0` (total: the guard
guarantees the conversion succeeds). -/
def pyIntDigitsOr0 (s : String) : Int :=
  if isDigits s then (digitsVal s.data : Int) else 0

/-- The Python idiom `int(s) if s else 0` where a conversion failure
raises `ValueError`: empty string gives `0`, otherwise `int(s)`. -/
def pyIntOrEmpty0E (s : String) : Except String Int :=
  if s = "" then .ok 0
  else
    match pyInt s with
    | some n => .ok n
    | none => .error "ValueError"

/-- The same idiom `int(s) if s else 0` executed under a
`try/except ValueError` that skips the row: `none` means the row is
skipped. -/
def pyIntOrEmpty0 (s : String) : Option Int :=
  if s = "" then some 0 else pyInt s

/-- Fractional and integer part of a Python `float(s)` literal. -/
def pyFloatCore (cs : List Char) : Option ℚ :=
  let intPart := cs.takeWhile Char.isDigit
  let rest := cs.dropWhile Char.isDigit
  match rest with
  | [] => if intPart.isEmpty then none else some ((digitsVal intPart : ℚ))
  | '.' :: frac =>
      if frac.all Char.isDigit && (!intPart.isEmpty || !frac.isEmpty) then
        some ((digitsVal intPart : ℚ) + (digitsVal frac : ℚ) / (10 ^ frac.length))
      else none
  | _ => none

/-- Python `float(s)` on optionally `-`-signed decimal/decimal-point
strings; `none` models a raised `ValueError`.  Floats are modelled as
rationals; no claim depends on binary floating-point rounding. -/
def pyFloat (s : String) : Option ℚ :=
  match s.data with
  | '-' :: rest => (pyFloatCore rest).map (fun q => -q)
  | _ => pyFloatCore s.data

/-- Rendering of a rational, standing in for Python float formatting
(exact text is owned by the excluded rendering layer, spec section 6). -/
def qstr (x : ℚ) : String :=
  toString x.num ++ "/" ++ toString x.den

/-! ## Python dict model

Association lists with Python dict assignment semantics: `d[k] = v`
overwrites the value in place when `k` is present and appends otherwise,
so later assignments to the same key silently replace earlier ones. -/

/-- Python `d[k] = v`. -/
def dictInsert {β : Type} (d : List (String × β)) (k : String) (v : β) :
    List (String × β) :=
  match d with
  | [] => [(k, v)]
  | p :: rest => if p.1 = k then (k, v) :: rest else p :: dictInsert rest k v

/-- Python `d.get(k)` (`d[k]` with a `None` default). -/
def dictGet {β : Type} (d : List (String × β)) (k : String) : Option β :=
  match d with
  | [] => none
  | p :: rest => if p.1 = k then some p.2 else dictGet rest k

/-- Python `d.get(k, default)`. -/
def dictGetD {β : Type} (d : List (String × β)) (k : String) (v : β) : β :=
  (dictGet d k).getD v

theorem dictInsert_ne_nil {β : Type} (d : List (String × β)) (k : String) (v : β) :
    dictInsert d k v ≠ [] := by
  cases d with
  | nil => simp [dictInsert]
  | cons p rest =>
      simp only [dictInsert]
      split <;> simp

theorem dictGet_dictInsert_self {β : Type} (d : List (String × β)) (k : String) (v : β) :
    dictGet (dictInsert d k v) k = some v := by
  induction d with
  | nil => simp [dictInsert, dictGet]
  | cons p rest ih =>
      simp only [dictInsert]
      split
      · simp [dictGet]
      · simp only [dictGet]
        split
        · simp_all
        · exact ih

theorem dictInsert_keys {β : Type} (d : List (String × β)) (k : String) (v : β) :
    (dictInsert d k v).map Prod.fst = d.map Prod.fst ∨
    (dictInsert d k v).map Prod.fst = d.map Prod.fst ++ [k] := by
  induction d with
  | nil => simp [dictInsert]
  | cons p rest ih =>
      simp only [dictInsert]
      split
      · left; simp_all
      · rcases ih with h | h
        · left; simp [h]
        · right; simp [h]

theorem dictInsert_keys_nodup {β : Type} (d : List (String × β)) (k : String) (v : β)
    (h : (d.map Prod.fst).Nodup) : ((dictInsert d k v).map Prod.fst).Nodup := by
  induction d with
  | nil => simp [dictInsert]
  | cons p rest ih =>
      simp only [dictInsert]
      split
      · rename_i heq
        simp only [List.map_cons, List.nodup_cons] at h ⊢
        exact ⟨by simpa [← heq] using h.1, h.2⟩
      · rename_i hne
        simp only [List.map_cons, List.nodup_cons] at h ⊢
        refine ⟨?_, ih h.2⟩
        rcases dictInsert_keys rest k v with hk | hk
        · rw [hk]; exact h.1
        · rw [hk]
          intro hmem
          rcases List.mem_append.mp hmem with hm | hm
          · exact h.1 hm
          · simp at hm
            exact hne (by simp [hm])

/-! ## Check output model

`Result(state=..., summary=...)` / `Result(state=..., notice=...)` and
`Metric(name, value)` yielded by a check function, in yield order.  The
summary/notice distinction only affects display; both map to `text`. -/

/-- The four monitoring states of `cmk.agent_based.v2.State`. -/
inductive CheckState where
  | OK
  | WARN
  | CRIT
  | UNKNOWN
deriving DecidableEq, Repr

/-- One yielded item of a check function. -/
inductive CheckItem where
  | result (state : CheckState) (text : String)
  | metric (name : String) (value : ℚ)
deriving DecidableEq, Repr

/-- Stand-in for the external `render.networkbandwidth` (exact text is
owned by the excluded rendering layer, spec section 6). -/
def render_networkbandwidth (x : ℚ) : String :=
  qstr x ++ " bit/s"

/-- Stand-in for the external `render.percent`. -/
def render_percent (x : ℚ) : String :=
  qstr x ++ "%"

/-- Severity rank used to combine evaluations (OK < WARN < CRIT;
UNKNOWN worst), spec section 4.6. -/
def stateRank (s : CheckState) : Nat :=
  match s with
  | .OK => 0
  | .WARN => 1
  | .CRIT => 2
  | .UNKNOWN => 3

/-- The worse of two states by `stateRank`. -/
def worseOf (a b : CheckState) : CheckState :=
  if stateRank a ≥ stateRank b then a else b

/-- Modelled from the spec: upper-direction threshold evaluation of the
external `cmk.agent_based.v2.check_levels` (spec section 4.5): CRIT if
`value >= critical`, else WARN if `value >= warning`, else OK; `none`
means no levels. -/
def evaluate_upper (value : ℚ) (levels : Option (ℚ × ℚ)) : CheckState :=
  match levels with
  | none => .OK
  | some (w, c) => if value ≥ c then .CRIT else if value ≥ w then .WARN else .OK

/-- Modelled from the spec: lower-direction threshold evaluation of the
external `check_levels` (spec section 4.5): CRIT if `value <= critical`,
else WARN if `value <= warning`, else OK. -/
def evaluate_lower (value : ℚ) (levels : Option (ℚ × ℚ)) : CheckState :=
  match levels with
  | none => .OK
  | some (w, c) => if value ≤ c then .CRIT else if value ≤ w then .WARN else .OK

/-- Modelled from the spec: the external `cmk.agent_based.v2.check_levels`
(not part of this repository).  It evaluates the value against the upper
and lower levels (spec section 4.5), yields one result at the worse of
the two severities and one metric carrying the value. -/
def check_levels (value : ℚ) (metric_name : String)
    (levels_upper levels_lower : Option (ℚ × ℚ)) (label : String) :
    List CheckItem :=
  [.result (worseOf (evaluate_upper value levels_upper) (evaluate_lower value levels_lower))
     (label ++ ": " ++ qstr value),
   .metric metric_name value]

/-! ## snmp_check.py, example 2: interface status -/

/-- One parsed entry of `parse_interface_status`. -/
structure IfStatusData where
  index : String
  admin_status : Int
  oper_status : Int
deriving DecidableEq, Repr

/-- `parse_interface_status` (snmp_check.py lines 139-168): skips rows
with fewer than 4 columns or an empty description, converts the status
columns with the `isdigit()` guard, keys by description, and returns
`None` for an empty table or when nothing parsed. -/
def parse_interface_status (string_table : List (List String)) :
    Option (List (String × IfStatusData)) :=
  if string_table.isEmpty then none
  else
    let parsed := string_table.foldl
      (fun acc row =>
        if row.length < 4 then acc
        else if row.getD 1 "" = "" then acc
        else
          dictInsert acc (row.getD 1 "")
            { index := row.getD 0 ""
              admin_status := pyIntDigitsOr0 (row.getD 2 "")
              oper_status := pyIntDigitsOr0 (row.getD 3 "") }) []
    if parsed.isEmpty then none else some parsed

/-- The `oper_status_map` lookup with its `(State.UNKNOWN, "invalid")`
default, shared by both interface check functions. -/
def oper_status_map (oper : Int) : CheckState × String :=
  if oper = 1 then (.OK, "up")
  else if oper = 2 then (.CRIT, "down")
  else if oper = 3 then (.WARN, "testing")
  else if oper = 4 then (.UNKNOWN, "unknown")
  else if oper = 5 then (.WARN, "dormant")
  else if oper = 6 then (.CRIT, "notPresent")
  else if oper = 7 then (.CRIT, "lowerLayerDown")
  else (.UNKNOWN, "invalid")

/-- `check_interface_status` (snmp_check.py lines 179-210).  The stored
per-interface dicts are never empty, so Python's `if not data:` test is
exactly the absent-key test. -/
def check_interface_status (item : String)
    (sec : List (String × IfStatusData)) : List CheckItem :=
  match dictGet sec item with
  | none => [.result .UNKNOWN "Interface not found"]
  | some data =>
      let p := oper_status_map data.oper_status
      let p := if data.admin_status ≠ 1 then (CheckState.OK, p.2 ++ " (admin down)") else p
      [.result p.1 ("Operational status: " ++ p.2)]

/-! ## snmp_check.py, example 4: interface traffic -/

/-- One parsed entry of `parse_interface_traffic`. -/
structure TrafficData where
  index : String
  in_octets : Int
  out_octets : Int
deriving DecidableEq, Repr

/-- `parse_interface_traffic` (snmp_check.py lines 341-365): skips rows
with fewer than 4 columns or an empty description; the counter
conversions run under `try/except ValueError: continue`, so an
unparsable non-empty counter skips the row. -/
def parse_interface_traffic (string_table : List (List String)) :
    Option (List (String × TrafficData)) :=
  if string_table.isEmpty then none
  else
    let parsed := string_table.foldl
      (fun acc row =>
        if row.length < 4 then acc
        else if row.getD 1 "" = "" then acc
        else
          match pyIntOrEmpty0 (row.getD 2 ""), pyIntOrEmpty0 (row.getD 3 "") with
          | some a, some b =>
              dictInsert acc (row.getD 1 "") { index := row.getD 0 "", in_octets := a, out_octets := b }
          | _, _ => acc) []
    if parsed.isEmpty then none else some parsed

/-- Modelled from the spec: the outcome of the external
`cmk.agent_based.v2.get_rate` for each metric key within one run
(spec section 4.4): `some r` is a computed per-second rate, `none`
models a raised `GetRateError` ("collecting"). -/
def RateOracle : Type := String → Option ℚ

/-- `check_interface_traffic` (snmp_check.py lines 374-412).  A
`GetRateError` from either `get_rate` call reaches the one `except`
handler, which yields the single OK "Collecting data..." result and
returns. -/
def check_interface_traffic (rates : RateOracle) (item : String)
    (sec : List (String × TrafficData)) : List CheckItem :=
  match dictGet sec item with
  | none => [.result .UNKNOWN "Interface not found"]
  | some _ =>
      match rates ("in_octets." ++ item), rates ("out_octets." ++ item) with
      | some in_rate, some out_rate =>
          let in_bps := in_rate * 8
          let out_bps := out_rate * 8
          [.result .OK
             ("In: " ++ render_networkbandwidth in_bps ++ ", Out: " ++
              render_networkbandwidth out_bps),
           .metric "if_in_bps" in_bps,
           .metric "if_out_bps" out_bps]
      | _, _ => [.result .OK "Collecting data..."]

/-! ## snmp_check_multitable.py -/

/-- `InterfaceData` (snmp_check_multitable.py lines 45-72). -/
structure InterfaceData where
  index : String
  descr : String
  name : String
  ifAlias : String  -- `alias` in the source; `alias` is a Lean keyword
  if_type : Int
  speed : Int
  admin_status : Int
  oper_status : Int
  in_octets : Int
  out_octets : Int
  in_errors : Int
  out_errors : Int
deriving DecidableEq, Repr

/-- `InterfaceData.is_up`. -/
def InterfaceData.is_up (i : InterfaceData) : Prop :=
  i.oper_status = 1

instance (i : InterfaceData) : Decidable i.is_up :=
  inferInstanceAs (Decidable (i.oper_status = 1))

/-- `InterfaceData.is_admin_up`. -/
def InterfaceData.is_admin_up (i : InterfaceData) : Prop :=
  i.admin_status = 1

instance (i : InterfaceData) : Decidable i.is_admin_up :=
  inferInstanceAs (Decidable (i.admin_status = 1))

/-- `InterfaceData.display_name`: Python `self.name or self.alias or
self.descr` (an empty string is falsy). -/
def InterfaceData.display_name (i : InterfaceData) : String :=
  if i.name ≠ "" then i.name else if i.ifAlias ≠ "" then i.ifAlias else i.descr

/-- Auxiliary record built from one `ifx_table` row. -/
structure IfxData where
  name : String
  ifAlias : String  -- `alias` in the source; `alias` is a Lean keyword
deriving DecidableEq, Repr

/-- Auxiliary record built from one `if_counters` row. -/
structure CounterData where
  in_octets : Int
  out_octets : Int
  in_errors : Int
  out_errors : Int
deriving DecidableEq, Repr

/-- The `ifx_by_index` correlation lookup (snmp_check_multitable.py
lines 108-112): rows with fewer than 3 columns are ignored. -/
def build_ifx_by_index (rows : List (List String)) : List (String × IfxData) :=
  rows.foldl
    (fun acc row =>
      if row.length ≥ 3 then
        dictInsert acc (row.getD 0 "") { name := row.getD 1 "", ifAlias := row.getD 2 "" }
      else acc) []

/-- The `counters_by_index` correlation lookup (snmp_check_multitable.py
lines 114-123): rows with fewer than 5 columns are ignored, but the
counter conversions `int(row[i]) if row[i] else 0` are not guarded, so a
non-empty unparsable counter field raises `ValueError` out of the whole
parse. -/
def build_counters_by_index (rows : List (List String)) :
    Except String (List (String × CounterData)) :=
  rows.foldlM
    (fun acc row =>
      if row.length ≥ 5 then do
        let a ← pyIntOrEmpty0E (row.getD 1 "")
        let b ← pyIntOrEmpty0E (row.getD 2 "")
        let c ← pyIntOrEmpty0E (row.getD 3 "")
        let d ← pyIntOrEmpty0E (row.getD 4 "")
        pure (dictInsert acc (row.getD 0 "")
          { in_octets := a, out_octets := b, in_errors := c, out_errors := d })
      else pure acc) []

/-- Construction of one `InterfaceData` from a well-formed primary row
(snmp_check_multitable.py lines 132-154): auxiliary fields default to
`""` / `0` via `.get(idx, {})` when the index is absent. -/
def buildInterface (ifx : List (String × IfxData)) (ctrs : List (String × CounterData))
    (row : List String) : InterfaceData :=
  let idx := row.getD 0 ""
  let ifx_data := dictGet ifx idx
  let counter_data := dictGet ctrs idx
  { index := idx
    descr := row.getD 1 ""
    name := (ifx_data.map IfxData.name).getD ""
    ifAlias := (ifx_data.map IfxData.ifAlias).getD ""
    if_type := pyIntDigitsOr0 (row.getD 2 "")
    speed := pyIntDigitsOr0 (row.getD 3 "")
    admin_status := pyIntDigitsOr0 (row.getD 4 "")
    oper_status := pyIntDigitsOr0 (row.getD 5 "")
    in_octets := (counter_data.map CounterData.in_octets).getD 0
    out_octets := (counter_data.map CounterData.out_octets).getD 0
    in_errors := (counter_data.map CounterData.in_errors).getD 0
    out_errors := (counter_data.map CounterData.out_errors).getD 0 }

/-- One iteration of the primary-table loop (snmp_check_multitable.py
lines 128-157): skip rows with fewer than 6 columns or an empty
description, otherwise key the built entity by its display name. -/
def parseStep (ifx : List (String × IfxData)) (ctrs : List (String × CounterData))
    (acc : List (String × InterfaceData)) (row : List String) :
    List (String × InterfaceData) :=
  if row.length < 6 then acc
  else if row.getD 1 "" = "" then acc
  else
    let i := buildInterface ifx ctrs row
    dictInsert acc i.display_name i

/-- `parse_multi_table_interfaces` (snmp_check_multitable.py
lines 83-159).  `.error` models an uncaught `ValueError`; `.ok none`
is the "no data" result. -/
def parse_multi_table_interfaces (string_table : List (List (List String))) :
    Except String (Option (List (String × InterfaceData))) :=
  if string_table.length < 3 then .ok none
  else
    match build_counters_by_index (string_table.getD 2 []) with
    | .error e => .error e
    | .ok ctrs =>
        let ifx := build_ifx_by_index (string_table.getD 1 [])
        let parsed := (string_table.getD 0 []).foldl (parseStep ifx ctrs) []
        .ok (if parsed.isEmpty then none else some parsed)

/-- A discovered service with its discovery-time parameter snapshot. -/
structure DiscoveredService where
  item : String
  discovered_speed : Int
  discovered_oper_status : Int
deriving DecidableEq, Repr

/-- `discover_multi_table_interfaces` (snmp_check_multitable.py
lines 166-183): yields one service per entity whose `if_type` is one of
(6, 117, 62, 69, 135, 136), snapshotting speed and operational status. -/
def discover_multi_table_interfaces (sec : List (String × InterfaceData)) :
    List DiscoveredService :=
  sec.filterMap
    (fun p =>
      if p.2.if_type = 6 ∨ p.2.if_type = 117 ∨ p.2.if_type = 62 ∨
         p.2.if_type = 69 ∨ p.2.if_type = 135 ∨ p.2.if_type = 136 then
        some { item := p.1, discovered_speed := p.2.speed,
               discovered_oper_status := p.2.oper_status }
      else none)

/-- The parameter mapping of `check_multi_table_interfaces` with the
`params.get(..., default)` defaults made explicit. -/
structure MultiParams where
  expected_status : Int := 1
  discovered_speed : Int := 0
  utilization_levels : ℚ × ℚ := (80, 90)
  error_levels : ℚ × ℚ := (1, 10)

/-- The status sub-check of `check_multi_table_interfaces`
(snmp_check_multitable.py lines 212-239). -/
def multiStatusPart (interface : InterfaceData) (params : MultiParams) :
    List CheckItem :=
  let p := oper_status_map interface.oper_status
  let p :=
    if interface.oper_status ≠ params.expected_status ∧ interface.is_admin_up then
      (CheckState.CRIT, p.2 ++ " (expected: up)")
    else if ¬interface.is_admin_up then
      (CheckState.OK, p.2 ++ " (admin down)")
    else p
  [.result p.1 ("Status: " ++ p.2)]

/-- The speed sub-check of `check_multi_table_interfaces`
(snmp_check_multitable.py lines 244-255): `if discovered_speed and ...`
tests integer truthiness, i.e. non-zero. -/
def multiSpeedPart (interface : InterfaceData) (params : MultiParams) :
    List CheckItem :=
  if interface.speed > 0 then
    if params.discovered_speed ≠ 0 ∧ interface.speed ≠ params.discovered_speed then
      [.result .WARN
         ("Speed changed: " ++ render_networkbandwidth (interface.speed : ℚ) ++
          " (was " ++ render_networkbandwidth (params.discovered_speed : ℚ) ++ ")")]
    else
      [.result .OK ("Speed: " ++ render_networkbandwidth (interface.speed : ℚ))]
  else []

/-- The traffic-rate sub-check of `check_multi_table_interfaces`
(snmp_check_multitable.py lines 260-306): both `get_rate` calls run in
one `try` block whose `except GetRateError` handler yields the single
OK "Traffic: collecting data..." notice. -/
def multiTrafficPart (rates : RateOracle) (item : String)
    (interface : InterfaceData) (params : MultiParams) : List CheckItem :=
  match rates ("in_octets." ++ item), rates ("out_octets." ++ item) with
  | some in_rate, some out_rate =>
      let in_bps := in_rate * 8
      let out_bps := out_rate * 8
      [.result .OK
         ("In: " ++ render_networkbandwidth in_bps ++ ", Out: " ++
          render_networkbandwidth out_bps),
       .metric "if_in_bps" in_bps,
       .metric "if_out_bps" out_bps] ++
      (if interface.speed > 0 then
        let in_util := in_bps / (interface.speed : ℚ) * 100
        let out_util := out_bps / (interface.speed : ℚ) * 100
        check_levels (max in_util out_util) "if_util_percent"
          (some params.utilization_levels) none "Utilization"
      else [])
  | _, _ => [.result .OK "Traffic: collecting data..."]

/-- The error-rate sub-check of `check_multi_table_interfaces`
(snmp_check_multitable.py lines 311-339): its `except GetRateError`
handler is `pass`, yielding nothing. -/
def multiErrorPart (rates : RateOracle) (item : String)
    (interface : InterfaceData) (params : MultiParams) : List CheckItem :=
  match rates ("in_errors." ++ item), rates ("out_errors." ++ item) with
  | some a, some b =>
      let total_err_rate := a + b
      if total_err_rate > 0 then
        check_levels total_err_rate "if_errors_rate" (some params.error_levels) none "Errors"
      else []
  | _, _ => []

/-- `check_multi_table_interfaces` (snmp_check_multitable.py
lines 190-339): the four sub-checks yield in program order; a missing
item short-circuits to the single UNKNOWN result.  `InterfaceData`
instances are always truthy, so `if not interface:` is the absent-key
test. -/
def check_multi_table_interfaces (rates : RateOracle) (item : String)
    (params : MultiParams) (sec : List (String × InterfaceData)) : List CheckItem :=
  match dictGet sec item with
  | none => [.result .UNKNOWN "Interface not found"]
  | some interface =>
      multiStatusPart interface params ++ multiSpeedPart interface params ++
      multiTrafficPart rates item interface params ++
      multiErrorPart rates item interface params

/-! ## agent_check_advanced.py -/

/-- One parsed entry of `parse_mycheck` (agent_check_advanced.py). -/
structure MyData where
  value : ℚ
  status : String
deriving DecidableEq, Repr

/-- `parse_mycheck` (agent_check_advanced.py lines 28-46): skips lines
with fewer than 3 fields; the `float` conversion runs under
`try/except (ValueError, IndexError): continue`. -/
def parse_mycheck (string_table : List (List String)) :
    Option (List (String × MyData)) :=
  if string_table.isEmpty then none
  else
    let parsed := string_table.foldl
      (fun acc line =>
        if line.length < 3 then acc
        else
          match pyFloat (line.getD 1 "") with
          | some v => dictInsert acc (line.getD 0 "") { value := v, status := line.getD 2 "" }
          | none => acc) []
    if parsed.isEmpty then none else some parsed

/-- The parameter mapping of `check_mycheck` (agent_check_advanced.py):
`params.get("levels_upper")` / `params.get("levels_lower")` may be
absent (`none`). -/
structure MyParams where
  levels_upper : Option (ℚ × ℚ) := some (80, 90)
  levels_lower : Option (ℚ × ℚ) := some (10, 5)

/-- `check_mycheck` (agent_check_advanced.py lines 55-88).  The stored
per-item dicts are never empty, so `if not data:` is the absent-key
test. -/
def check_mycheck (item : String) (params : MyParams)
    (sec : List (String × MyData)) : List CheckItem :=
  match dictGet sec item with
  | none => [.result .UNKNOWN "Item not found in data"]
  | some data =>
      check_levels data.value "mycheck_value" params.levels_upper params.levels_lower
        "Value" ++
      [.result .OK ("Reported status: " ++ data.status)]

/-! ## agent_check_simple.py

The parsed section is `{"value": v}` where `v` is the first field of the
first row or Python `None`; the outer `Option` is the "no data" result
of the parse function. -/

/-- `parse_mycheck` (agent_check_simple.py lines 22-28). -/
def parse_mycheck_simple (string_table : List (List String)) :
    Option (Option String) :=
  if string_table.isEmpty then none
  else
    some (if (string_table.getD 0 []).isEmpty then none
          else some ((string_table.getD 0 []).getD 0 ""))

/-- `discover_mycheck` (agent_check_simple.py lines 31-34): `if section:`
is false exactly for the `None` section (the one-key dict is truthy even
when its value is `None`).  `Unit` is the item-less `Service()`. -/
def discover_mycheck_simple (sec : Option (Option String)) : List Unit :=
  match sec with
  | none => []
  | some _ => [()]

/-- `check_mycheck_simple` (agent_check_simple.py lines 37-44):
`if not section or not section.get("value")` is true for a `None`
section, a `None` value and an empty-string value. -/
def check_mycheck_simple (sec : Option (Option String)) : List CheckItem :=
  match sec with
  | none => [.result .UNKNOWN "No data"]
  | some v =>
      match v with
      | none => [.result .UNKNOWN "No data"]
      | some s =>
          if s = "" then [.result .UNKNOWN "No data"]
          else [.result .OK ("Value: " ++ s)]

/-! ## local_check.py

Local-check statuses are the integers printed on the status line. -/

def STATUS_OK : Nat := 0

def STATUS_WARN : Nat := 1

def STATUS_CRIT : Nat := 2

def STATUS_UNKNOWN : Nat := 3

/-- The status decision of `check_backup` (local_check.py
lines 414-420), as a function of the computed backup age and size (the
file-system interrogation producing them is external I/O): CRIT when
the age strictly exceeds the maximum, else WARN when the size is
strictly below the minimum, else OK. -/
def check_backup_status (age_hours max_age_hours size_mb min_size_mb : ℚ) : Nat :=
  if age_hours > max_age_hours then STATUS_CRIT
  else if size_mb < min_size_mb then STATUS_WARN
  else STATUS_OK

/-- The status decision of `check_process_count` (local_check.py
lines 251-270), as a function of the counted processes (the process
enumeration producing the count is external I/O): CRIT when the count
is strictly below the minimum, else WARN when strictly above the
maximum, else OK. -/
def check_process_count_status (count min_count max_count : Int) : Nat :=
  if count < min_count then STATUS_CRIT
  else if count > max_count then STATUS_WARN
  else STATUS_OK

/-! ## Claims -/

/-- Claim C1 (code_bug evidence): the claim says a malformed row — in
particular one with an unparsable required numeric field — is skipped
and table parsing continues.  `parse_interface_traffic` indeed skips
such a row, but in `parse_multi_table_interfaces` a single counter-table
row with a non-empty unparsable counter field raises `ValueError` and
aborts the parse of the whole table. -/
theorem c1_bad_counter_row_aborts_whole_parse :
    parse_multi_table_interfaces
        [[["1", "eth0", "6", "1000", "1", "1"]], [],
         [["1", "abc", "0", "0", "0"]]] = .error "ValueError" ∧
    parse_interface_traffic [["1", "eth0", "abc", "0"], ["2", "eth1", "5", "7"]] =
      some [("eth1", { index := "2", in_octets := 5, out_octets := 7 })] :=
  ⟨rfl, rfl⟩

/-- Claim C6: an empty (or absent) input table parses to the
distinguished "no data" result `none` without raising; discovery over
"no data" discovers nothing and checking reports UNKNOWN. -/
theorem c6_empty_input_is_no_data :
    parse_interface_status [] = none ∧
    parse_multi_table_interfaces [] = .ok none ∧
    discover_mycheck_simple none = [] ∧
    check_mycheck_simple none = [.result .UNKNOWN "No data"] :=
  ⟨rfl, rfl, rfl, rfl⟩

/-- Claim C4: a check invocation whose requested entity key is absent
from the parsed section yields exactly one UNKNOWN result with a
"not found" summary, emits no metrics, and returns. -/
theorem c4_missing_entity_unknown (rates : RateOracle) (item : String)
    (p : MultiParams) (q : MyParams)
    (msec : List (String × InterfaceData)) (asec : List (String × MyData))
    (hm : dictGet msec item = none) (ha : dictGet asec item = none) :
    check_multi_table_interfaces rates item p msec =
      [.result .UNKNOWN "Interface not found"] ∧
    check_mycheck item q asec = [.result .UNKNOWN "Item not found in data"] := by
  constructor
  · unfold check_multi_table_interfaces
    rw [hm]
  · unfold check_mycheck
    rw [ha]

theorem c4_missing_entity_unknown_witness :
    check_multi_table_interfaces (fun _ => none) "eth5" {} [] =
      [.result .UNKNOWN "Interface not found"] ∧
    check_mycheck "eth5" {} [] = [.result .UNKNOWN "Item not found in data"] :=
  c4_missing_entity_unknown (fun _ => none) "eth5" {} {} [] [] rfl rfl

/-- Claim C2: whenever `get_rate` raises `GetRateError`, the check
functions render it benignly: `check_interface_traffic` yields exactly
the single OK "Collecting data..." result, the traffic sub-check of
`check_multi_table_interfaces` yields exactly the single OK
"Traffic: collecting data..." notice, and its error-rate sub-check
yields nothing — never WARN, CRIT or UNKNOWN. -/
theorem c2_rate_error_benign (rates : RateOracle) (item : String)
    (p : MultiParams) (tsec : List (String × TrafficData)) (d : TrafficData)
    (iface : InterfaceData)
    (hd : dictGet tsec item = some d)
    (h1 : rates ("in_octets." ++ item) = none ∨ rates ("out_octets." ++ item) = none)
    (h2 : rates ("in_errors." ++ item) = none ∨ rates ("out_errors." ++ item) = none) :
    check_interface_traffic rates item tsec = [.result .OK "Collecting data..."] ∧
    multiTrafficPart rates item iface p = [.result .OK "Traffic: collecting data..."] ∧
    multiErrorPart rates item iface p = [] := by
  refine ⟨?_, ?_, ?_⟩
  · unfold check_interface_traffic
    rw [hd]
    rcases h1 with h | h
    · rw [h]
    · cases hin : rates ("in_octets." ++ item) with
      | none => rfl
      | some r => rw [h]
  · unfold multiTrafficPart
    rcases h1 with h | h
    · rw [h]
    · cases hin : rates ("in_octets." ++ item) with
      | none => rfl
      | some r => rw [h]
  · unfold multiErrorPart
    rcases h2 with h | h
    · rw [h]
    · cases hin : rates ("in_errors." ++ item) with
      | none => rfl
      | some r => rw [h]

theorem c2_rate_error_benign_witness :
    check_interface_traffic (fun _ => none) "eth0" [("eth0", ⟨"1", 0, 0⟩)] =
      [.result .OK "Collecting data..."] ∧
    multiTrafficPart (fun _ => none) "eth0"
      ⟨"1", "eth0", "", "", 6, 1000, 1, 1, 0, 0, 0, 0⟩ {} =
      [.result .OK "Traffic: collecting data..."] ∧
    multiErrorPart (fun _ => none) "eth0"
      ⟨"1", "eth0", "", "", 6, 1000, 1, 1, 0, 0, 0, 0⟩ {} = [] :=
  c2_rate_error_benign (fun _ => none) "eth0" {} [("eth0", ⟨"1", 0, 0⟩)] ⟨"1", 0, 0⟩
    ⟨"1", "eth0", "", "", 6, 1000, 1, 1, 0, 0, 0, 0⟩ rfl (Or.inl rfl) (Or.inl rfl)

/-- Claim C8: for an interface whose `admin_status` is not 1, the
operational-status sub-result of both interface check functions has
state OK regardless of `oper_status`, with " (admin down)" appended to
the status text — never WARN or CRIT. -/
theorem c8_admin_down_status_is_ok (item : String)
    (sec : List (String × IfStatusData)) (d : IfStatusData)
    (iface : InterfaceData) (p : MultiParams)
    (hd : dictGet sec item = some d)
    (h1 : d.admin_status ≠ 1) (h2 : iface.admin_status ≠ 1) :
    check_interface_status item sec =
      [.result .OK
         ("Operational status: " ++ ((oper_status_map d.oper_status).2 ++ " (admin down)"))] ∧
    multiStatusPart iface p =
      [.result .OK
         ("Status: " ++ ((oper_status_map iface.oper_status).2 ++ " (admin down)"))] := by
  have hadm : ¬iface.is_admin_up := h2
  constructor
  · unfold check_interface_status
    rw [hd]
    simp only [h1, ne_eq, not_false_eq_true, if_true]
  · simp only [multiStatusPart]
    rw [if_neg (fun hc => hadm hc.2), if_pos hadm]

theorem c8_admin_down_status_is_ok_witness :
    check_interface_status "eth0" [("eth0", ⟨"1", 2, 2⟩)] =
      [.result .OK "Operational status: down (admin down)"] ∧
    multiStatusPart ⟨"1", "eth0", "", "", 6, 1000, 2, 2, 0, 0, 0, 0⟩ {} =
      [.result .OK "Status: down (admin down)"] :=
  c8_admin_down_status_is_ok "eth0" [("eth0", ⟨"1", 2, 2⟩)] ⟨"1", 2, 2⟩
    ⟨"1", "eth0", "", "", 6, 1000, 2, 2, 0, 0, 0, 0⟩ {} rfl (by decide) (by decide)

/-- Claim C3 counterexample: the claim says threshold comparisons are
inclusive (a value equal to the critical bound is CRIT), but both local
checks compare strictly: `check_process_count` with `count = min_count`
and `check_backup` with `age_hours = max_age_hours` classify the
boundary value OK, not CRIT. -/
theorem c3_inclusive_boundary_counterexample :
    check_process_count_status 1 1 100 = STATUS_OK ∧
    check_process_count_status 1 1 100 ≠ STATUS_CRIT ∧
    check_backup_status 25 25 100 10 = STATUS_OK ∧
    check_backup_status 25 25 100 10 ≠ STATUS_CRIT := by
  refine ⟨?_, ?_, ?_, ?_⟩ <;> decide

/-- Claim C3 (amended): threshold evaluation in the local checks is
strict (exclusive) and checks the critical condition first: for
`check_backup`, CRIT iff the age strictly exceeds the maximum, else
WARN iff the size is strictly below the minimum, else OK; for
`check_process_count`, CRIT iff the count is strictly below the
minimum, else WARN iff strictly above the maximum, else OK.  Boundary
values belong to the better category, and a value satisfying both
conditions is CRIT because critical is checked first. -/
theorem c3_strict_threshold_evaluation
    (age maxAge size minSize : ℚ) (count minC maxC : Int) :
    (maxAge < age → check_backup_status age maxAge size minSize = STATUS_CRIT) ∧
    (age ≤ maxAge → size < minSize →
      check_backup_status age maxAge size minSize = STATUS_WARN) ∧
    (age ≤ maxAge → minSize ≤ size →
      check_backup_status age maxAge size minSize = STATUS_OK) ∧
    (count < minC → check_process_count_status count minC maxC = STATUS_CRIT) ∧
    (minC ≤ count → maxC < count →
      check_process_count_status count minC maxC = STATUS_WARN) ∧
    (minC ≤ count → count ≤ maxC →
      check_process_count_status count minC maxC = STATUS_OK) := by
  refine ⟨fun h => ?_, fun h h2 => ?_, fun h h2 => ?_,
          fun h => ?_, fun h h2 => ?_, fun h h2 => ?_⟩
  · unfold check_backup_status
    rw [if_pos h]
  · unfold check_backup_status
    rw [if_neg (not_lt.mpr h), if_pos h2]
  · unfold check_backup_status
    rw [if_neg (not_lt.mpr h), if_neg (not_lt.mpr h2)]
  · unfold check_process_count_status
    rw [if_pos h]
  · unfold check_process_count_status
    rw [if_neg (not_lt.mpr h), if_pos h2]
  · unfold check_process_count_status
    rw [if_neg (not_lt.mpr h), if_neg (not_lt.mpr h2)]

theorem c3_strict_threshold_evaluation_witness :
    check_backup_status 30 25 100 10 = STATUS_CRIT ∧
    check_backup_status 20 25 5 10 = STATUS_WARN ∧
    check_backup_status 20 25 100 10 = STATUS_OK ∧
    check_process_count_status 0 1 100 = STATUS_CRIT ∧
    check_process_count_status 150 1 100 = STATUS_WARN ∧
    check_process_count_status 5 1 100 = STATUS_OK :=
  ⟨(c3_strict_threshold_evaluation 30 25 100 10 0 1 100).1 (by norm_num),
   (c3_strict_threshold_evaluation 20 25 5 10 0 1 100).2.1 (by norm_num) (by norm_num),
   (c3_strict_threshold_evaluation 20 25 100 10 0 1 100).2.2.1 (by norm_num) (by norm_num),
   (c3_strict_threshold_evaluation 0 0 0 0 0 1 100).2.2.2.1 (by norm_num),
   (c3_strict_threshold_evaluation 0 0 0 0 150 1 100).2.2.2.2.1 (by norm_num) (by norm_num),
   (c3_strict_threshold_evaluation 0 0 0 0 5 1 100).2.2.2.2.2 (by norm_num) (by norm_num)⟩

/-- Claim C7: discovery is idempotent and deterministic — in the pure
embedding two runs on the same section are definitionally equal — and
each discovered service's baseline parameters are exactly the snapshot
of the corresponding entity's speed and operational status. -/
theorem c7_discovery_idempotent (sec : List (String × InterfaceData)) :
    discover_multi_table_interfaces sec = discover_multi_table_interfaces sec ∧
    ∀ d ∈ discover_multi_table_interfaces sec, ∃ p ∈ sec,
      d.item = p.1 ∧ d.discovered_speed = p.2.speed ∧
      d.discovered_oper_status = p.2.oper_status := by
  refine ⟨rfl, ?_⟩
  intro d hd
  unfold discover_multi_table_interfaces at hd
  rw [List.mem_filterMap] at hd
  obtain ⟨p, hp, hf⟩ := hd
  refine ⟨p, hp, ?_⟩
  split at hf
  · cases hf
    exact ⟨rfl, rfl, rfl⟩
  · cases hf

theorem c7_discovery_idempotent_witness :
    discover_multi_table_interfaces
        [("eth0", ⟨"1", "eth0", "", "", 6, 1000, 1, 1, 0, 0, 0, 0⟩)] =
      discover_multi_table_interfaces
        [("eth0", ⟨"1", "eth0", "", "", 6, 1000, 1, 1, 0, 0, 0, 0⟩)] ∧
    ∃ p ∈ [("eth0", (⟨"1", "eth0", "", "", 6, 1000, 1, 1, 0, 0, 0, 0⟩ : InterfaceData))],
      ({ item := "eth0", discovered_speed := 1000,
         discovered_oper_status := 1 } : DiscoveredService).item = p.1 ∧
      (1000 : Int) = p.2.speed ∧ (1 : Int) = p.2.oper_status :=
  ⟨(c7_discovery_idempotent
      [("eth0", ⟨"1", "eth0", "", "", 6, 1000, 1, 1, 0, 0, 0, 0⟩)]).1,
   (c7_discovery_idempotent
      [("eth0", ⟨"1", "eth0", "", "", 6, 1000, 1, 1, 0, 0, 0, 0⟩)]).2
     ⟨"eth0", 1000, 1⟩ (by decide)⟩

/-- Claim C9: each table parse function returns either `None` or a
non-empty mapping — a successful non-`None` parse result always holds
at least one entity. -/
theorem c9_parse_sections_nonempty :
    (∀ st m, parse_multi_table_interfaces st = .ok (some m) → m ≠ []) ∧
    (∀ st m, parse_interface_status st = some m → m ≠ []) ∧
    (∀ st m, parse_mycheck st = some m → m ≠ []) := by
  refine ⟨?_, ?_, ?_⟩
  · intro st m h
    unfold parse_multi_table_interfaces at h
    split at h
    · simp at h
    · split at h
      · exact absurd h (by simp)
      · simp only [] at h
        split at h
        · simp at h
        · rename_i hemp
          intro hnil
          simp only [Except.ok.injEq, Option.some.injEq] at h
          rw [h, hnil] at hemp
          simp at hemp
  · intro st m h
    unfold parse_interface_status at h
    split at h
    · simp at h
    · simp only [] at h
      split at h
      · simp at h
      · rename_i hemp
        intro hnil
        simp only [Option.some.injEq] at h
        rw [h, hnil] at hemp
        simp at hemp
  · intro st m h
    unfold parse_mycheck at h
    split at h
    · simp at h
    · simp only [] at h
      split at h
      · simp at h
      · rename_i hemp
        intro hnil
        simp only [Option.some.injEq] at h
        rw [h, hnil] at hemp
        simp at hemp

theorem c9_parse_sections_nonempty_witness :
    ([("eth0", (⟨"1", "eth0", "", "", 6, 1000, 1, 1, 0, 0, 0, 0⟩ : InterfaceData))] :
        List (String × InterfaceData)) ≠ [] ∧
    ([("eth0", (⟨"1", 1, 1⟩ : IfStatusData))] : List (String × IfStatusData)) ≠ [] ∧
    ([("item1", (⟨100, "OK"⟩ : MyData))] : List (String × MyData)) ≠ [] :=
  ⟨c9_parse_sections_nonempty.1 [[["1", "eth0", "6", "1000", "1", "1"]], [], []] _ rfl,
   c9_parse_sections_nonempty.2.1 [["1", "eth0", "1", "1"]] _ rfl,
   c9_parse_sections_nonempty.2.2 [["item1", "100", "OK"]] _ rfl⟩

theorem isEmpty_false_of_ne_nil {α : Type} {l : List α} (h : l ≠ []) :
    l.isEmpty = false := by
  cases l with
  | nil => exact absurd rfl h
  | cons a l => rfl

/-- Evaluation of `parse_multi_table_interfaces` on a three-table input
whose counter table parses without a `ValueError`. -/
theorem parse_multi_eq_of_counters_ok (ifT ifxT ctrT : List (List String))
    (ctrs : List (String × CounterData))
    (hctr : build_counters_by_index ctrT = .ok ctrs) :
    parse_multi_table_interfaces [ifT, ifxT, ctrT] =
      .ok (if (ifT.foldl (parseStep (build_ifx_by_index ifxT) ctrs) []).isEmpty then none
           else some (ifT.foldl (parseStep (build_ifx_by_index ifxT) ctrs) [])) := by
  unfold parse_multi_table_interfaces
  rw [if_neg (by simp)]
  simp only [List.getD_cons_succ, List.getD_cons_zero]
  rw [hctr]

theorem parseStep_foldl_keys_nodup (ifx : List (String × IfxData))
    (ctrs : List (String × CounterData)) (rows : List (List String))
    (acc : List (String × InterfaceData)) (h : (acc.map Prod.fst).Nodup) :
    ((rows.foldl (parseStep ifx ctrs) acc).map Prod.fst).Nodup := by
  induction rows generalizing acc with
  | nil => exact h
  | cons r rs ih =>
      rw [List.foldl_cons]
      apply ih
      unfold parseStep
      split
      · exact h
      · split
        · exact h
        · exact dictInsert_keys_nodup _ _ _ h

/-- Claim C5: an index present in the primary table but absent from the
auxiliary tables still produces an entity: its auxiliary-sourced fields
default to the empty string (name, alias) and zero (all counters), its
key falls back to the description, and the entity is inserted into the
parsed mapping rather than dropped. -/
theorem c5_missing_aux_index_defaults (ifxT ctrT pre : List (List String))
    (row : List String) (ctrs : List (String × CounterData))
    (hrow : 6 ≤ row.length) (hdescr : row.getD 1 "" ≠ "")
    (hctr : build_counters_by_index ctrT = .ok ctrs)
    (hix : dictGet (build_ifx_by_index ifxT) (row.getD 0 "") = none)
    (hic : dictGet ctrs (row.getD 0 "") = none) :
    (buildInterface (build_ifx_by_index ifxT) ctrs row).name = "" ∧
    (buildInterface (build_ifx_by_index ifxT) ctrs row).ifAlias = "" ∧
    (buildInterface (build_ifx_by_index ifxT) ctrs row).in_octets = 0 ∧
    (buildInterface (build_ifx_by_index ifxT) ctrs row).out_octets = 0 ∧
    (buildInterface (build_ifx_by_index ifxT) ctrs row).in_errors = 0 ∧
    (buildInterface (build_ifx_by_index ifxT) ctrs row).out_errors = 0 ∧
    (buildInterface (build_ifx_by_index ifxT) ctrs row).display_name = row.getD 1 "" ∧
    ∃ m, parse_multi_table_interfaces [pre ++ [row], ifxT, ctrT] = .ok (some m) ∧
      dictGet m (row.getD 1 "") =
        some (buildInterface (build_ifx_by_index ifxT) ctrs row) := by
  have hname : (buildInterface (build_ifx_by_index ifxT) ctrs row).name = "" := by
    simp only [buildInterface]
    rw [hix]
    rfl
  have halias : (buildInterface (build_ifx_by_index ifxT) ctrs row).ifAlias = "" := by
    simp only [buildInterface]
    rw [hix]
    rfl
  have hdisp : (buildInterface (build_ifx_by_index ifxT) ctrs row).display_name =
      row.getD 1 "" := by
    have hdescr2 : (buildInterface (build_ifx_by_index ifxT) ctrs row).descr =
        row.getD 1 "" := by
      simp [buildInterface]
    unfold InterfaceData.display_name
    rw [hname, halias, hdescr2]
    simp
  have hstep : ∀ acc, parseStep (build_ifx_by_index ifxT) ctrs acc row =
      dictInsert acc (row.getD 1 "") (buildInterface (build_ifx_by_index ifxT) ctrs row) := by
    intro acc
    unfold parseStep
    rw [if_neg (by omega), if_neg hdescr]
    simp only []
    rw [hdisp]
  have hfold : (pre ++ [row]).foldl (parseStep (build_ifx_by_index ifxT) ctrs) [] =
      dictInsert (pre.foldl (parseStep (build_ifx_by_index ifxT) ctrs) [])
        (row.getD 1 "") (buildInterface (build_ifx_by_index ifxT) ctrs row) := by
    rw [List.foldl_append, List.foldl_cons, List.foldl_nil, hstep]
  have hq : ∀ f : CounterData → Int,
      (Option.map f (dictGet ctrs (row.getD 0 ""))).getD 0 = 0 := by
    intro f
    rw [hic]
    rfl
  refine ⟨hname, halias, by simp only [buildInterface]; exact hq _,
          by simp only [buildInterface]; exact hq _,
          by simp only [buildInterface]; exact hq _,
          by simp only [buildInterface]; exact hq _, hdisp,
          dictInsert (pre.foldl (parseStep (build_ifx_by_index ifxT) ctrs) [])
            (row.getD 1 "") (buildInterface (build_ifx_by_index ifxT) ctrs row),
          ?_, dictGet_dictInsert_self _ _ _⟩
  rw [parse_multi_eq_of_counters_ok _ _ _ _ hctr, hfold,
      isEmpty_false_of_ne_nil (dictInsert_ne_nil _ _ _)]
  rfl

theorem c5_missing_aux_index_defaults_witness :
    (buildInterface (build_ifx_by_index []) [] ["9", "eth9", "6", "1000", "1", "1"]).name = "" ∧
    (buildInterface (build_ifx_by_index []) [] ["9", "eth9", "6", "1000", "1", "1"]).ifAlias = "" ∧
    (buildInterface (build_ifx_by_index []) [] ["9", "eth9", "6", "1000", "1", "1"]).in_octets = 0 ∧
    (buildInterface (build_ifx_by_index []) [] ["9", "eth9", "6", "1000", "1", "1"]).out_octets = 0 ∧
    (buildInterface (build_ifx_by_index []) [] ["9", "eth9", "6", "1000", "1", "1"]).in_errors = 0 ∧
    (buildInterface (build_ifx_by_index []) [] ["9", "eth9", "6", "1000", "1", "1"]).out_errors = 0 ∧
    (buildInterface (build_ifx_by_index []) [] ["9", "eth9", "6", "1000", "1", "1"]).display_name =
      "eth9" ∧
    ∃ m, parse_multi_table_interfaces [[["9", "eth9", "6", "1000", "1", "1"]], [], []] =
        .ok (some m) ∧
      dictGet m "eth9" =
        some (buildInterface (build_ifx_by_index []) [] ["9", "eth9", "6", "1000", "1", "1"]) :=
  c5_missing_aux_index_defaults [] [] [] ["9", "eth9", "6", "1000", "1", "1"] []
    (by decide) (by decide) rfl rfl rfl

/-- Claim C10: multi-table parsing keys entities by display name, not
by SNMP index: the parsed mapping's keys are duplicate-free, and for
two well-formed primary rows with the same display name the entity
built from the later row silently replaces the earlier one, leaving
exactly that one entity under the shared display name. -/
theorem c10_display_name_keying :
    (∀ st m, parse_multi_table_interfaces st = .ok (some m) → (m.map Prod.fst).Nodup) ∧
    (∀ (ifxT ctrT : List (List String)) (ctrs : List (String × CounterData))
       (r1 r2 : List String),
      build_counters_by_index ctrT = .ok ctrs →
      6 ≤ r1.length → r1.getD 1 "" ≠ "" → 6 ≤ r2.length → r2.getD 1 "" ≠ "" →
      (buildInterface (build_ifx_by_index ifxT) ctrs r1).display_name =
        (buildInterface (build_ifx_by_index ifxT) ctrs r2).display_name →
      parse_multi_table_interfaces [[r1, r2], ifxT, ctrT] =
        .ok (some [((buildInterface (build_ifx_by_index ifxT) ctrs r2).display_name,
                    buildInterface (build_ifx_by_index ifxT) ctrs r2)])) := by
  constructor
  · intro st m h
    unfold parse_multi_table_interfaces at h
    split at h
    · simp at h
    · split at h
      · exact absurd h (by simp)
      · simp only [] at h
        split at h
        · simp at h
        · simp only [Except.ok.injEq, Option.some.injEq] at h
          rw [← h]
          exact parseStep_foldl_keys_nodup _ _ _ _ (by simp)
  · intro ifxT ctrT ctrs r1 r2 hctr h1 hd1 h2 hd2 hdisp
    rw [parse_multi_eq_of_counters_ok _ _ _ _ hctr]
    rw [List.foldl_cons, List.foldl_cons, List.foldl_nil]
    have hs1 : parseStep (build_ifx_by_index ifxT) ctrs [] r1 =
        [((buildInterface (build_ifx_by_index ifxT) ctrs r1).display_name,
          buildInterface (build_ifx_by_index ifxT) ctrs r1)] := by
      unfold parseStep
      rw [if_neg (by omega), if_neg hd1]
      rfl
    rw [hs1]
    have hs2 : parseStep (build_ifx_by_index ifxT) ctrs
        [((buildInterface (build_ifx_by_index ifxT) ctrs r1).display_name,
          buildInterface (build_ifx_by_index ifxT) ctrs r1)] r2 =
        [((buildInterface (build_ifx_by_index ifxT) ctrs r2).display_name,
          buildInterface (build_ifx_by_index ifxT) ctrs r2)] := by
      unfold parseStep
      rw [if_neg (by omega), if_neg hd2]
      simp only [dictInsert]
      rw [if_pos hdisp]
    rw [hs2]
    rfl

theorem c10_display_name_keying_witness :
    ((([("eth0", (⟨"1", "eth0", "", "", 6, 1000, 1, 1, 0, 0, 0, 0⟩ : InterfaceData))] :
        List (String × InterfaceData)).map Prod.fst).Nodup) ∧
    parse_multi_table_interfaces
        [[["1", "eth0", "6", "1000", "1", "1"], ["2", "eth0", "6", "1000", "1", "2"]],
         [], []] =
      .ok (some [("eth0",
        (⟨"2", "eth0", "", "", 6, 1000, 1, 2, 0, 0, 0, 0⟩ : InterfaceData))]) :=
  ⟨c10_display_name_keying.1 [[["1", "eth0", "6", "1000", "1", "1"]], [], []] _ rfl,
   c10_display_name_keying.2 [] [] [] ["1", "eth0", "6", "1000", "1", "1"]
     ["2", "eth0", "6", "1000", "1", "2"] rfl (by decide) (by decide) (by decide)
     (by decide) rfl⟩

end CmkSpec
